import Mathlib

/-!
Shallow embedding of the AKS provisioning module (src/aksProvisioner.js):
the cluster-readiness polling loop `waitForClusterReady` together with the
collaborators it drives (`getClusterStatus`, `reconcileCluster`) and the
node-count validation of `createAksCluster`.

The loop body (lines 178-216 of the source) is a `try`/`catch`:
the `try` part polls `getClusterStatus`, returns `true` on `'Succeeded'`,
and on `'Failed'` with the one-shot flag unset awaits `reconcileCluster`
(un-wrapped, so a reconcile rejection propagates to the `catch`); the
`catch` part may attempt one more reconciliation when the caught message
contains `'control plane'` and the flag is unset.  We embed the `try`
part as an `Except`-valued function whose error carries the thrown
message (plus, as pure instrumentation, how many reconcile invocations
the iteration had already made), the `catch` part as a total function,
and the loop as recursion whose wall-clock accounting is explicit:
each iteration sleeps a fixed 30000 ms and may consume extra time
(query latency etc.) given by an environment-supplied duration.
-/

namespace AksProvisioner

/-- Result object of `getClusterStatus` as inspected by the wait loop:
the `provisioningState` field it branches on plus the `mock` marker;
purely informational fields (name, location, kubernetesVersion) are
elided. -/
structure ClusterStatus where
  provisioningState : String
  mock : Bool
deriving DecidableEq

/-- Does the character list `needle` start the list `hay`?  Helper for
the embedding of JavaScript `String.prototype.includes`. -/
def charsStart : List Char → List Char → Bool
  | [], _ => true
  | _ :: _, [] => false
  | a :: as, b :: bs => a == b && charsStart as bs

/-- Does `needle` occur as a contiguous run somewhere in `hay`? -/
def charsIncl (needle : List Char) : List Char → Bool
  | [] => charsStart needle []
  | b :: bs => charsStart needle (b :: bs) || charsIncl needle bs

/-- Embedding of the JavaScript expression `hay.includes(needle)` used at
line 203 of the source (`error.message.includes('control plane')`). -/
def includes (hay needle : String) : Bool :=
  charsIncl needle.toList hay.toList

/-- Observable effect of one iteration of the wait loop: whether the
function returned `true` (`done`), the value of `reconcileAttempted`
after the iteration (`flag`), and how many times `reconcileCluster` was
invoked during the iteration (`recCalls`, instrumentation). -/
structure IterOut where
  done : Bool
  flag : Bool
  recCalls : Nat
deriving DecidableEq

/-- The `try` part of the loop body (source lines 179-198).  `q` is the
outcome of this iteration's `getClusterStatus` call (`Except.error m`
models the call rejecting with an error whose `.message` is `m`).
`rc k` is the outcome of the session's `k`-th `reconcileCluster`
invocation, `recs` the number of invocations made before this iteration.
A thrown error carries its message together with the number of reconcile
invocations the iteration made before throwing (instrumentation only:
the JavaScript error value carries just the message). -/
def tryBlock (q : Except String ClusterStatus) (rc : Nat → Except String Unit)
    (recs : Nat) (flag : Bool) : Except (String × Nat) IterOut :=
  match q with
  | Except.error msg => Except.error (msg, 0)
  | Except.ok cluster =>
    if cluster.provisioningState = "Succeeded" then
      Except.ok ⟨true, flag, 0⟩
    else if cluster.provisioningState = "Failed" ∧ flag = false then
      match rc recs with
      | Except.ok _ => Except.ok ⟨false, true, 1⟩
      | Except.error msg => Except.error (msg, 1)
    else
      Except.ok ⟨false, flag, 0⟩

/-- The `catch` part of the loop body (source lines 199-215): when the
caught message contains `'control plane'` and `reconcileAttempted` is
still false, try one reconciliation, setting the flag only if it
succeeds (its own failure is merely logged, line 208-210). -/
def catchBlock (msg : String) (rc : Nat → Except String Unit)
    (recs : Nat) (flag : Bool) : IterOut :=
  if flag = false ∧ includes msg "control plane" = true then
    match rc recs with
    | Except.ok _ => ⟨false, true, 1⟩
    | Except.error _ => ⟨false, flag, 1⟩
  else
    ⟨false, flag, 0⟩

/-- One full iteration of the loop body: run the `try` part, and feed any
thrown error into the `catch` part (which always lets the loop
continue). -/
def iterate (q : Except String ClusterStatus) (rc : Nat → Except String Unit)
    (recs : Nat) (flag : Bool) : IterOut :=
  match tryBlock q rc recs flag with
  | Except.ok out => out
  | Except.error (msg, c) =>
    let h := catchBlock msg rc (recs + c) flag
    ⟨h.done, h.flag, c + h.recCalls⟩

/-- Environment of one wait session: `query k` is the outcome of the
`k`-th `getClusterStatus` call, `reconcile k` the outcome of the `k`-th
`reconcileCluster` call, and `dur k` the extra wall-clock time in
milliseconds consumed by iteration `k` beyond the fixed 30-second sleep
(query latency, reconcile latency, ...). -/
structure Env where
  query : Nat → Except String ClusterStatus
  reconcile : Nat → Except String Unit
  dur : Nat → Nat

/-- Observable result of a `waitForClusterReady` call: a normal return of
`true`, or a thrown error with message `msg`.  Both carry, as
instrumentation, the total number of `getClusterStatus` calls (`polls`)
and `reconcileCluster` calls (`recs`) the session performed. -/
inductive Outcome where
  | ok (polls recs : Nat)
  | thrown (msg : String) (polls recs : Nat)
deriving DecidableEq

/-- The message of the error thrown at source line 218. -/
def timeoutMessage (clusterName : String) (timeoutMinutes : Int) : String :=
  "Timeout waiting for cluster " ++ clusterName ++ " to be ready after " ++
    toString timeoutMinutes ++ " minutes"

/-- The wait loop (source lines 178-218).  `elapsed` is the wall-clock
time in milliseconds since `startTime`; the loop runs while
`elapsed < timeoutMinutes * 60 * 1000` and each iteration advances the
clock by its sleep (30000 ms) plus the environment-given extra time.
`fuel` bounds the recursion as bookkeeping only: since every iteration
consumes at least 30000 ms, any fuel with
`timeoutMinutes * 60000 ≤ elapsed + 30000 * fuel` is never exhausted,
and the out-of-fuel clause coincides with the timed-out result
(`waitRun_fuel_stable` below proves the result is fuel-independent for
all such fuels), so the fuel is not a semantic bound. -/
def waitRun (env : Env) (clusterName : String) (timeoutMinutes : Int) :
    Nat → Nat → Nat → Nat → Bool → Outcome
  | 0, _, polls, recs, _ =>
    Outcome.thrown (timeoutMessage clusterName timeoutMinutes) polls recs
  | fuel + 1, elapsed, polls, recs, flag =>
    if (elapsed : Int) < timeoutMinutes * 60000 then
      if (iterate (env.query polls) env.reconcile recs flag).done then
        Outcome.ok (polls + 1)
          (recs + (iterate (env.query polls) env.reconcile recs flag).recCalls)
      else
        waitRun env clusterName timeoutMinutes fuel
          (elapsed + env.dur polls + 30000) (polls + 1)
          (recs + (iterate (env.query polls) env.reconcile recs flag).recCalls)
          (iterate (env.query polls) env.reconcile recs flag).flag
    else
      Outcome.thrown (timeoutMessage clusterName timeoutMinutes) polls recs

/-- Entry point `waitForClusterReady(clusterName, timeoutMinutes)`
(source lines 171-219): elapsed time, poll counter, reconcile counter
start at zero and `reconcileAttempted` starts false.  The fuel
`timeoutMinutes.toNat * 2 + 1` satisfies the adequacy bound above. -/
def waitForClusterReady (env : Env) (clusterName : String) (timeoutMinutes : Int) : Outcome :=
  waitRun env clusterName timeoutMinutes (timeoutMinutes.toNat * 2 + 1) 0 0 0 false

/-- Number of `getClusterStatus` calls a session performed. -/
def outPolls : Outcome → Nat
  | Outcome.ok p _ => p
  | Outcome.thrown _ p _ => p

/-- Number of `reconcileCluster` calls a session performed. -/
def outRecs : Outcome → Nat
  | Outcome.ok _ r => r
  | Outcome.thrown _ _ r => r

/-- Did the session return successfully? -/
def isOk : Outcome → Bool
  | Outcome.ok _ _ => true
  | Outcome.thrown _ _ _ => false

/-- Embedding of `getClusterStatus` (source lines 221-248) for one call:
without Azure credentials it returns `{provisioningState: 'Succeeded',
mock: true}` (after a short sleep, irrelevant to the returned value);
with credentials the result is that of the Azure lookup `azureGet`
(whose failure is re-thrown). -/
def getClusterStatus (azureAvailable : Bool) (azureGet : Except String ClusterStatus) :
    Except String ClusterStatus :=
  if azureAvailable = false then
    Except.ok ⟨"Succeeded", true⟩
  else
    azureGet

/-- Longest run of decimal digits starting the list. -/
def leadingDigits : List Char → List Char
  | [] => []
  | c :: cs => if c.isDigit then c :: leadingDigits cs else []

/-- Numeric value of a list of decimal digits, most significant first. -/
def digitsVal (ds : List Char) : Nat :=
  ds.foldl (fun a c => 10 * a + (c.toNat - 48)) 0

/-- Embedding of JavaScript `parseInt(s, 10)`: skip leading whitespace,
read an optional sign, then the longest run of decimal digits; the
result is `none` (NaN) when that run is empty.  (JavaScript skips the
full Unicode whitespace set; `Char.isWhitespace` covers the ASCII
subset, which is all the claims exercise.) -/
def jsParseInt10 (s : String) : Option Int :=
  let cs := s.toList.dropWhile Char.isWhitespace
  match cs with
  | '-' :: t =>
    if (leadingDigits t).isEmpty then none
    else some (-(digitsVal (leadingDigits t) : Int))
  | '+' :: t =>
    if (leadingDigits t).isEmpty then none
    else some ((digitsVal (leadingDigits t) : Int))
  | _ =>
    if (leadingDigits cs).isEmpty then none
    else some ((digitsVal (leadingDigits cs) : Int))

/-- What a `createAksCluster` call does after validation: either the mock
path builds its canned response, or the real path initiates the Azure
create operation (the Azure call itself is abstracted: the claim under
study is only about whether a creation call is reached at all). -/
inductive CreateOutcome where
  | mockCreated (clusterName : String) (nodeCount : Int) (vmSize : String)
  | realCreateInitiated (clusterName : String) (nodeCount : Int) (vmSize : String)
deriving DecidableEq

/-- Embedding of `createAksCluster` (source lines 43-53): parse the node
count with `parseInt(nodeCount, 10)`, throw
`'Invalid node count. Must be a valid number.'` when it is NaN, and only
then branch on `azureAvailable` into the mock or the real path. -/
def createAksCluster (azureAvailable : Bool) (clusterName : String)
    (nodeCount : String) (vmSize : String) : Except String CreateOutcome :=
  match jsParseInt10 nodeCount with
  | none => Except.error "Invalid node count. Must be a valid number."
  | some numNodes =>
    if azureAvailable = false then
      Except.ok (CreateOutcome.mockCreated clusterName numNodes vmSize)
    else
      Except.ok (CreateOutcome.realCreateInitiated clusterName numNodes vmSize)

/-- Environment whose status query always reports `'Failed'` and whose
reconcile action always succeeds, with no extra latency. -/
def envFailedRecOk : Env where
  query := fun _ => Except.ok ⟨"Failed", false⟩
  reconcile := fun _ => Except.ok ()
  dur := fun _ => 0

/-- Environment whose status query always reports `'Failed'` and whose
first reconcile attempt rejects (with a message not mentioning the
control plane) while later attempts succeed. -/
def envFailedRecBroken : Env where
  query := fun _ => Except.ok ⟨"Failed", false⟩
  reconcile := fun k => if k = 0 then Except.error "node pool broken" else Except.ok ()
  dur := fun _ => 0

/-- Environment whose status query always reports `'Failed'` and whose
reconcile action always rejects. -/
def envFailedRecErr : Env where
  query := fun _ => Except.ok ⟨"Failed", false⟩
  reconcile := fun _ => Except.error "azure boom"
  dur := fun _ => 0

/-- Environment whose status query always rejects with a transient
network error. -/
def envQueryErr : Env where
  query := fun _ => Except.error "ECONNRESET: connection reset by peer"
  reconcile := fun _ => Except.ok ()
  dur := fun _ => 0

/-- Environment whose status query reports `'Succeeded'` from the first
poll on. -/
def envReady : Env where
  query := fun _ => Except.ok ⟨"Succeeded", false⟩
  reconcile := fun _ => Except.ok ()
  dur := fun _ => 0

/-- The `catch` part never ends the session: the loop always continues
after it. -/
theorem catchBlock_done (msg : String) (rc : Nat → Except String Unit)
    (recs : Nat) (flag : Bool) : (catchBlock msg rc recs flag).done = false := by
  unfold catchBlock
  split
  · cases rc recs <;> rfl
  · rfl

/-- Iteration equation: the query reported `'Succeeded'`. -/
theorem iterate_ok_succeeded {st : ClusterStatus} (hS : st.provisioningState = "Succeeded")
    (rc : Nat → Except String Unit) (recs : Nat) (flag : Bool) :
    iterate (Except.ok st) rc recs flag = ⟨true, flag, 0⟩ := by
  simp [iterate, tryBlock, hS]

/-- Iteration equation: a state that is neither `'Succeeded'` nor a
flag-clear `'Failed'` just continues the loop. -/
theorem iterate_ok_other {st : ClusterStatus} (hS : st.provisioningState ≠ "Succeeded")
    (hF : ¬(st.provisioningState = "Failed" ∧ flag = false))
    (rc : Nat → Except String Unit) (recs : Nat) :
    iterate (Except.ok st) rc recs flag = ⟨false, flag, 0⟩ := by
  simp [iterate, tryBlock, if_neg hS, if_neg hF]

/-- Iteration equation: `'Failed'` with the flag clear and a succeeding
reconciliation sets the flag. -/
theorem iterate_ok_failed_rcok {st : ClusterStatus} (hS : st.provisioningState = "Failed")
    {rc : Nat → Except String Unit} {recs : Nat} {u : Unit} (hrc : rc recs = Except.ok u) :
    iterate (Except.ok st) rc recs false = ⟨false, true, 1⟩ := by
  have hS' : st.provisioningState ≠ "Succeeded" := by simp [hS]
  simp [iterate, tryBlock, if_neg hS', hS, hrc]

/-- Iteration equation: `'Failed'` with the flag clear and a throwing
reconciliation whose message lacks `'control plane'` leaves the flag
clear (the error lands in the `catch`, which does nothing more). -/
theorem iterate_ok_failed_rcerr_nocp {st : ClusterStatus} (hS : st.provisioningState = "Failed")
    {rc : Nat → Except String Unit} {recs : Nat} {m : String}
    (hrc : rc recs = Except.error m) (hcp : includes m "control plane" = false) :
    iterate (Except.ok st) rc recs false = ⟨false, false, 1⟩ := by
  have hS' : st.provisioningState ≠ "Succeeded" := by simp [hS]
  simp [iterate, tryBlock, if_neg hS', hS, hrc, catchBlock, hcp]

/-- Iteration equation: `'Failed'`, reconciliation throws a
`'control plane'` message, and the `catch`-side retry succeeds: two
invocations in one iteration, flag finally set. -/
theorem iterate_ok_failed_rcerr_cp_ok {st : ClusterStatus} (hS : st.provisioningState = "Failed")
    {rc : Nat → Except String Unit} {recs : Nat} {m : String} {u : Unit}
    (hrc : rc recs = Except.error m) (hcp : includes m "control plane" = true)
    (hrc2 : rc (recs + 1) = Except.ok u) :
    iterate (Except.ok st) rc recs false = ⟨false, true, 2⟩ := by
  have hS' : st.provisioningState ≠ "Succeeded" := by simp [hS]
  simp [iterate, tryBlock, if_neg hS', hS, hrc, catchBlock, hcp, hrc2]

/-- Iteration equation: `'Failed'`, reconciliation throws a
`'control plane'` message, and the `catch`-side retry throws as well:
two invocations, flag still clear. -/
theorem iterate_ok_failed_rcerr_cp_err {st : ClusterStatus} (hS : st.provisioningState = "Failed")
    {rc : Nat → Except String Unit} {recs : Nat} {m m2 : String}
    (hrc : rc recs = Except.error m) (hcp : includes m "control plane" = true)
    (hrc2 : rc (recs + 1) = Except.error m2) :
    iterate (Except.ok st) rc recs false = ⟨false, false, 2⟩ := by
  have hS' : st.provisioningState ≠ "Succeeded" := by simp [hS]
  simp [iterate, tryBlock, if_neg hS', hS, hrc, catchBlock, hcp, hrc2]

/-- Iteration equation: query error with a `'control plane'` message,
flag clear, reconciliation succeeds. -/
theorem iterate_err_cp_ok {m : String} (hcp : includes m "control plane" = true)
    {rc : Nat → Except String Unit} {recs : Nat} {u : Unit}
    (hrc : rc recs = Except.ok u) :
    iterate (Except.error m) rc recs false = ⟨false, true, 1⟩ := by
  simp [iterate, tryBlock, catchBlock, hcp, hrc]

/-- Iteration equation: query error with a `'control plane'` message,
flag clear, reconciliation throws: flag stays clear. -/
theorem iterate_err_cp_err {m : String} (hcp : includes m "control plane" = true)
    {rc : Nat → Except String Unit} {recs : Nat} {m2 : String}
    (hrc : rc recs = Except.error m2) :
    iterate (Except.error m) rc recs false = ⟨false, false, 1⟩ := by
  simp [iterate, tryBlock, catchBlock, hcp, hrc]

/-- Iteration equation: query error that does not trigger the
reconciliation branch (flag already set, or no `'control plane'` in the
message): nothing happens, the loop continues. -/
theorem iterate_err_other {m : String} {flag : Bool}
    (h : ¬(flag = false ∧ includes m "control plane" = true))
    (rc : Nat → Except String Unit) (recs : Nat) :
    iterate (Except.error m) rc recs flag = ⟨false, flag, 0⟩ := by
  simp [iterate, tryBlock, catchBlock, if_neg h]

/-- An iteration ends the session successfully exactly when its status
query returned `provisioningState = "Succeeded"`. -/
theorem iterate_done_true (q : Except String ClusterStatus)
    (rc : Nat → Except String Unit) (recs : Nat) (flag : Bool) :
    (iterate q rc recs flag).done = true ↔
      ∃ st, q = Except.ok st ∧ st.provisioningState = "Succeeded" := by
  cases q with
  | error msg =>
    by_cases h : flag = false ∧ includes msg "control plane" = true
    · obtain ⟨h1, h2⟩ := h
      subst h1
      cases hrc : rc recs with
      | ok u => rw [iterate_err_cp_ok h2 hrc]; simp
      | error m2 => rw [iterate_err_cp_err h2 hrc]; simp
    · rw [iterate_err_other h]; simp
  | ok st =>
    by_cases hS : st.provisioningState = "Succeeded"
    · rw [iterate_ok_succeeded hS]; simp [hS]
    · by_cases hF : st.provisioningState = "Failed" ∧ flag = false
      · obtain ⟨hF1, hF2⟩ := hF
        subst hF2
        cases hrc : rc recs with
        | ok u => rw [iterate_ok_failed_rcok hF1 hrc]; simp [hS]
        | error m =>
          cases hcp : includes m "control plane" with
          | false => rw [iterate_ok_failed_rcerr_nocp hF1 hrc hcp]; simp [hS]
          | true =>
            cases hrc2 : rc (recs + 1) with
            | ok u => rw [iterate_ok_failed_rcerr_cp_ok hF1 hrc hcp hrc2]; simp [hS]
            | error m2 => rw [iterate_ok_failed_rcerr_cp_err hF1 hrc hcp hrc2]; simp [hS]
      · rw [iterate_ok_other hS hF]; simp [hS]

/-- Any error thrown by the wait loop carries the timeout message. -/
theorem waitRun_thrown_msg (env : Env) (c : String) (m : Int) :
    ∀ fuel elapsed polls recs flag msg p r,
      waitRun env c m fuel elapsed polls recs flag = Outcome.thrown msg p r →
      msg = timeoutMessage c m := by
  intro fuel
  induction fuel with
  | zero =>
    intro e p0 r0 f msg p r h
    simp only [waitRun] at h
    injection h with h1
    exact h1.symm
  | succ n ih =>
    intro e p0 r0 f msg p r h
    simp only [waitRun] at h
    split at h
    · split at h
      · exact absurd h (by simp)
      · exact ih _ _ _ _ msg p r h
    · injection h with h1
      exact h1.symm

/-- The fuel of `waitRun` is irrelevant once adequate: every iteration
consumes at least 30000 ms, so any two fuels that both cover the
remaining budget give the same result. -/
theorem waitRun_fuel_stable (env : Env) (c : String) (m : Int) :
    ∀ (fuel1 fuel2 elapsed polls recs : Nat) (flag : Bool),
      m * 60000 ≤ (elapsed : Int) + 30000 * (fuel1 : Int) →
      m * 60000 ≤ (elapsed : Int) + 30000 * (fuel2 : Int) →
      waitRun env c m fuel1 elapsed polls recs flag =
        waitRun env c m fuel2 elapsed polls recs flag := by
  intro fuel1
  induction fuel1 with
  | zero =>
    intro fuel2 e p r f h1 h2
    cases fuel2 with
    | zero => rfl
    | succ k =>
      simp only [waitRun]
      rw [if_neg (by push_cast at h1 ⊢; omega)]
  | succ n ih =>
    intro fuel2 e p r f h1 h2
    cases fuel2 with
    | zero =>
      simp only [waitRun]
      rw [if_neg (by push_cast at h2 ⊢; omega)]
    | succ k =>
      simp only [waitRun]
      by_cases hc : (e : Int) < m * 60000
      · rw [if_pos hc, if_pos hc]
        by_cases hd : (iterate (env.query p) env.reconcile r f).done = true
        · rw [if_pos hd, if_pos hd]
        · rw [if_neg hd, if_neg hd]
          exact ih k _ _ _ _ (by push_cast at h1 ⊢; omega) (by push_cast at h2 ⊢; omega)
      · rw [if_neg hc, if_neg hc]

/-- When no poll ever reports `'Succeeded'`, the session ends by throwing
the timeout error. -/
theorem waitRun_noSucc_thrown (env : Env) (c : String) (m : Int)
    (hq : ∀ k st, env.query k = Except.ok st → st.provisioningState ≠ "Succeeded") :
    ∀ fuel elapsed polls recs flag, ∃ p r,
      waitRun env c m fuel elapsed polls recs flag =
        Outcome.thrown (timeoutMessage c m) p r := by
  intro fuel
  induction fuel with
  | zero =>
    intro e p0 r0 f
    exact ⟨p0, r0, by simp [waitRun]⟩
  | succ n ih =>
    intro e p0 r0 f
    by_cases hc : (e : Int) < m * 60000
    · have hd : (iterate (env.query p0) env.reconcile r0 f).done = false := by
        cases hdone : (iterate (env.query p0) env.reconcile r0 f).done
        · rfl
        · obtain ⟨st, hst, hS⟩ := (iterate_done_true (env.query p0) env.reconcile r0 f).mp hdone
          exact absurd hS (hq p0 st hst)
      obtain ⟨p, r, hrec⟩ := ih (e + env.dur p0 + 30000) (p0 + 1)
        (r0 + (iterate (env.query p0) env.reconcile r0 f).recCalls)
        (iterate (env.query p0) env.reconcile r0 f).flag
      refine ⟨p, r, ?_⟩
      simp only [waitRun]
      rw [if_pos hc, if_neg (by simp [hd]), hrec]
    · exact ⟨p0, r0, by simp only [waitRun]; rw [if_neg hc]⟩

/-- A successful session found `'Succeeded'` on its last poll. -/
theorem waitRun_ok_succ (env : Env) (c : String) (m : Int) :
    ∀ fuel elapsed polls recs flag p r,
      waitRun env c m fuel elapsed polls recs flag = Outcome.ok p r →
      polls < p ∧ ∃ st, env.query (p - 1) = Except.ok st ∧
        st.provisioningState = "Succeeded" := by
  intro fuel
  induction fuel with
  | zero =>
    intro e p0 r0 f p r h
    simp [waitRun] at h
  | succ n ih =>
    intro e p0 r0 f p r h
    simp only [waitRun] at h
    split at h
    · split at h
      · rename_i hdone
        injection h with h1 h2
        obtain ⟨st, hst, hS⟩ := (iterate_done_true (env.query p0) env.reconcile r0 f).mp hdone
        subst h1
        exact ⟨Nat.lt_succ_self p0, st, by simpa using hst, hS⟩
      · obtain ⟨hlt, hst⟩ := ih _ _ _ _ p r h
        exact ⟨Nat.lt_of_succ_lt hlt, hst⟩
    · exact absurd h (by simp)

/-- A thrown session saw no `'Succeeded'` on any of its polls. -/
theorem waitRun_thrown_noSucc (env : Env) (c : String) (m : Int) :
    ∀ fuel elapsed polls recs flag msg p r,
      waitRun env c m fuel elapsed polls recs flag = Outcome.thrown msg p r →
      polls ≤ p ∧ ∀ k, polls ≤ k → k < p →
        ∀ st, env.query k = Except.ok st → st.provisioningState ≠ "Succeeded" := by
  intro fuel
  induction fuel with
  | zero =>
    intro e p0 r0 f msg p r h
    simp only [waitRun] at h
    injection h with h1 h2 h3
    subst h2
    exact ⟨Nat.le_refl p0, fun k hk1 hk2 => absurd (Nat.lt_of_le_of_lt hk1 hk2) (Nat.lt_irrefl p0)⟩
  | succ n ih =>
    intro e p0 r0 f msg p r h
    simp only [waitRun] at h
    split at h
    · split at h
      · exact absurd h (by simp)
      · rename_i hdone
        obtain ⟨hle, hall⟩ := ih _ _ _ _ msg p r h
        refine ⟨Nat.le_of_succ_le hle, fun k hk1 hk2 st hst => ?_⟩
        rcases Nat.eq_or_lt_of_le hk1 with hEq | hlt
        · intro hS
          have : (iterate (env.query p0) env.reconcile r0 f).done = true :=
            (iterate_done_true (env.query p0) env.reconcile r0 f).mpr ⟨st, hEq ▸ hst, hS⟩
          simp [this] at hdone
        · exact hall k hlt hk2 st hst
    · injection h with h1 h2 h3
      subst h2
      exact ⟨Nat.le_refl p0, fun k hk1 hk2 => absurd (Nat.lt_of_le_of_lt hk1 hk2) (Nat.lt_irrefl p0)⟩

/-- With an always-succeeding reconcile action, one iteration preserves
the session invariant: at most one reconcile call total, and none at all
while the flag is still clear. -/
theorem iterate_allok_step (q : Except String ClusterStatus)
    (rc : Nat → Except String Unit) (recs : Nat) (flag : Bool)
    (hrc : ∀ k, rc k = Except.ok ())
    (h2 : flag = false → recs = 0) (h1 : recs ≤ 1) :
    recs + (iterate q rc recs flag).recCalls ≤ 1 ∧
      ((iterate q rc recs flag).flag = false →
        recs + (iterate q rc recs flag).recCalls = 0) := by
  cases q with
  | error msg =>
    by_cases h : flag = false ∧ includes msg "control plane" = true
    · obtain ⟨hf, hcp⟩ := h
      subst hf
      rw [iterate_err_cp_ok hcp (hrc recs)]
      have h0 := h2 rfl
      simp [h0]
    · rw [iterate_err_other h]
      exact ⟨by simpa using h1, fun hf => by simpa using h2 hf⟩
  | ok st =>
    by_cases hS : st.provisioningState = "Succeeded"
    · rw [iterate_ok_succeeded hS]
      exact ⟨by simpa using h1, fun hf => by simpa using h2 hf⟩
    · by_cases hF : st.provisioningState = "Failed" ∧ flag = false
      · obtain ⟨hF1, hF2⟩ := hF
        subst hF2
        rw [iterate_ok_failed_rcok hF1 (hrc recs)]
        have h0 := h2 rfl
        simp [h0]
      · rw [iterate_ok_other hS hF]
        exact ⟨by simpa using h1, fun hf => by simpa using h2 hf⟩

/-- With an always-succeeding reconcile action, a session starting in a
state respecting the one-shot invariant performs at most one reconcile
call in total. -/
theorem waitRun_recs_le (env : Env) (c : String) (m : Int)
    (hrc : ∀ k, env.reconcile k = Except.ok ()) :
    ∀ fuel elapsed polls recs flag, recs ≤ 1 → (flag = false → recs = 0) →
      outRecs (waitRun env c m fuel elapsed polls recs flag) ≤ 1 := by
  intro fuel
  induction fuel with
  | zero =>
    intro e p0 r0 f h1 h2
    simpa [waitRun, outRecs] using h1
  | succ n ih =>
    intro e p0 r0 f h1 h2
    obtain ⟨g1, g2⟩ := iterate_allok_step (env.query p0) env.reconcile r0 f hrc h2 h1
    simp only [waitRun]
    split
    · split
      · simpa [outRecs] using g1
      · exact ih _ _ _ _ g1 g2
    · simpa [outRecs] using h1

/-- Upper bound on the number of polls: every iteration costs at least
the 30-second sleep, so a session with budget `m` minutes performs at
most `2 * m` polls. -/
theorem waitRun_polls_le (env : Env) (c : String) (m : Int) (hm : 0 < m) :
    ∀ (fuel elapsed polls recs : Nat) (flag : Bool),
      30000 * polls ≤ elapsed →
      (polls = 0 ∨ 30000 * ((polls : Int) - 1) < m * 60000) →
      outPolls (waitRun env c m fuel elapsed polls recs flag) ≤ 2 * m.toNat := by
  intro fuel
  induction fuel with
  | zero =>
    intro e p0 r0 f hpe hp
    simp only [waitRun, outPolls]
    rcases hp with h | h
    · omega
    · omega
  | succ n ih =>
    intro e p0 r0 f hpe hp
    simp only [waitRun]
    split
    · rename_i hc
      split
      · simp only [outPolls]
        omega
      · exact ih (e + env.dur p0 + 30000) (p0 + 1)
          (r0 + (iterate (env.query p0) env.reconcile r0 f).recCalls)
          (iterate (env.query p0) env.reconcile r0 f).flag
          (by omega) (Or.inr (by push_cast at hc ⊢; omega))
    · simp only [outPolls]
      rcases hp with h | h
      · omega
      · omega

/-- Exact poll count in the worst case: with zero extra latency and no
`'Succeeded'` observation, the session polls exactly `2 * m` times
before throwing the timeout error. -/
theorem waitRun_polls_exact (env : Env) (c : String) (m : Int) (hm : 0 < m)
    (hd0 : ∀ k, env.dur k = 0)
    (hq : ∀ k st, env.query k = Except.ok st → st.provisioningState ≠ "Succeeded") :
    ∀ fuel polls recs flag,
      2 * m.toNat ≤ fuel + polls → polls ≤ 2 * m.toNat →
      ∃ r, waitRun env c m fuel (30000 * polls) polls recs flag =
        Outcome.thrown (timeoutMessage c m) (2 * m.toNat) r := by
  intro fuel
  induction fuel with
  | zero =>
    intro p0 r0 f hf hp
    have hp0 : p0 = 2 * m.toNat := by omega
    subst hp0
    exact ⟨r0, by simp [waitRun]⟩
  | succ n ih =>
    intro p0 r0 f hf hp
    rcases Nat.eq_or_lt_of_le hp with hEq | hlt
    · refine ⟨r0, ?_⟩
      simp only [waitRun]
      rw [if_neg (by push_cast; omega), hEq]
    · have hc : ((30000 * p0 : Nat) : Int) < m * 60000 := by push_cast; omega
      have hdone : (iterate (env.query p0) env.reconcile r0 f).done = false := by
        cases hdon : (iterate (env.query p0) env.reconcile r0 f).done
        · rfl
        · obtain ⟨st, hst, hS⟩ :=
            (iterate_done_true (env.query p0) env.reconcile r0 f).mp hdon
          exact absurd hS (hq p0 st hst)
      obtain ⟨r, hrec⟩ := ih (p0 + 1)
        (r0 + (iterate (env.query p0) env.reconcile r0 f).recCalls)
        (iterate (env.query p0) env.reconcile r0 f).flag (by omega) (by omega)
      refine ⟨r, ?_⟩
      simp only [waitRun]
      rw [if_pos hc, if_neg (by simp [hdone]), hd0 p0]
      have harith : 30000 * p0 + 0 + 30000 = 30000 * (p0 + 1) := by ring
      rw [harith, hrec]

/-- C3: for every timeout budget of at most zero minutes,
`waitForClusterReady` throws the timeout error immediately, performing
zero `getClusterStatus` calls and zero `reconcileCluster` calls (the two
trailing counters of the outcome). -/
theorem c3_nonpositive_budget (env : Env) (c : String) (m : Int) (hm : m ≤ 0) :
    waitForClusterReady env c m = Outcome.thrown (timeoutMessage c m) 0 0 := by
  unfold waitForClusterReady
  simp only [waitRun]
  rw [if_neg (by push_cast; omega)]

/-- C3 witness: concrete zero and negative budgets fail immediately with
no query and no reconcile. -/
theorem c3_witness :
    waitForClusterReady envFailedRecOk "demo-cluster" 0 =
        Outcome.thrown (timeoutMessage "demo-cluster" 0) 0 0 ∧
      waitForClusterReady envFailedRecOk "demo-cluster" (-2) =
        Outcome.thrown (timeoutMessage "demo-cluster" (-2)) 0 0 :=
  ⟨c3_nonpositive_budget envFailedRecOk "demo-cluster" 0 (by norm_num),
    c3_nonpositive_budget envFailedRecOk "demo-cluster" (-2) (by norm_num)⟩

/-- C10: a `createAksCluster` call whose node count parses to NaN throws
`'Invalid node count. Must be a valid number.'` before reaching either
the mock or the real creation path. -/
theorem c10_invalid_node_count (a : Bool) (c s v : String) (h : jsParseInt10 s = none) :
    createAksCluster a c s v = Except.error "Invalid node count. Must be a valid number." ∧
      ∀ out, createAksCluster a c s v ≠ Except.ok out := by
  have he : createAksCluster a c s v =
      Except.error "Invalid node count. Must be a valid number." := by
    unfold createAksCluster
    rw [h]
  exact ⟨he, fun out hout => by rw [he] at hout; exact Except.noConfusion hout⟩

/-- C10 witness: the non-numeric node count `"abc"` is rejected on both
the real and the mock path. -/
theorem c10_witness :
    createAksCluster true "my-cluster" "abc" "Standard_D2s_v3" =
      Except.error "Invalid node count. Must be a valid number." :=
  (c10_invalid_node_count true "my-cluster" "abc" "Standard_D2s_v3" (by decide)).1


/-- C8: every error a `waitForClusterReady` session throws carries both
the cluster identifier and the timeout budget in its message. -/
theorem c8_timeout_error_detail (env : Env) (c : String) (m : Int) (msg : String)
    (p r : Nat) (h : waitForClusterReady env c m = Outcome.thrown msg p r) :
    ∃ mid tl, msg = "Timeout waiting for cluster " ++ c ++ mid ++ toString m ++ tl := by
  have hmsg := waitRun_thrown_msg env c m (m.toNat * 2 + 1) 0 0 0 false msg p r h
  exact ⟨" to be ready after ", " minutes", by rw [hmsg]; rfl⟩

/-- C8 witness: a concrete timed-out session's message carries the
cluster name and the budget. -/
theorem c8_witness :
    ∃ mid tl, timeoutMessage "demo-cluster" (0 : Int) =
      "Timeout waiting for cluster " ++ "demo-cluster" ++ mid ++ toString (0 : Int) ++ tl :=
  c8_timeout_error_detail envFailedRecOk "demo-cluster" 0
    (timeoutMessage "demo-cluster" 0) 0 0 (by decide)

/-- C9: without Azure credentials `getClusterStatus` always returns the
mock `'Succeeded'` status, so a wait session over it returns success on
the first poll, with no reconcile call, for every positive budget. -/
theorem c9_mock_status_succeeds (az : Nat → Except String ClusterStatus)
    (rc : Nat → Except String Unit) (du : Nat → Nat) (c : String) (m : Int)
    (hm : 0 < m) :
    (∀ g : Except String ClusterStatus,
        getClusterStatus false g = Except.ok ⟨"Succeeded", true⟩) ∧
      waitForClusterReady ⟨fun k => getClusterStatus false (az k), rc, du⟩ c m =
        Outcome.ok 1 0 := by
  refine ⟨fun g => rfl, ?_⟩
  have hc : ((0 : Nat) : Int) < m * 60000 := by push_cast; omega
  have hit : iterate ((⟨fun k => getClusterStatus false (az k), rc, du⟩ : Env).query 0)
      (⟨fun k => getClusterStatus false (az k), rc, du⟩ : Env).reconcile 0 false =
        ⟨true, false, 0⟩ :=
    iterate_ok_succeeded rfl _ _ _
  unfold waitForClusterReady
  simp only [waitRun]
  rw [if_pos hc, hit]
  simp

/-- C9 witness: a concrete credential-less session succeeds on the first
poll without reconciling. -/
theorem c9_witness :
    waitForClusterReady
        ⟨fun k => getClusterStatus false ((fun _ => Except.error "azure unavailable") k),
          (fun _ => Except.ok ()), (fun _ => 3000)⟩ "demo-cluster" 10 =
      Outcome.ok 1 0 :=
  (c9_mock_status_succeeds (fun _ => Except.error "azure unavailable")
    (fun _ => Except.ok ()) (fun _ => 3000) "demo-cluster" 10 (by norm_num)).2

/-- C4: a query error never ends an iteration (the loop continues); every
thrown session error is the timeout error; and when no poll ever
observes `'Succeeded'` — in particular when the query keeps raising —
the session terminates by throwing exactly the timeout error. -/
theorem c4_only_timeout_error (env : Env) (c : String) (m : Int) :
    (∀ msg rc recs flag, (iterate (Except.error msg) rc recs flag).done = false) ∧
      (∀ msg p r, waitForClusterReady env c m = Outcome.thrown msg p r →
        msg = timeoutMessage c m) ∧
      ((∀ k st, env.query k = Except.ok st → st.provisioningState ≠ "Succeeded") →
        ∃ p r, waitForClusterReady env c m = Outcome.thrown (timeoutMessage c m) p r) := by
  refine ⟨?_, ?_, ?_⟩
  · intro msg rc recs flag
    cases hd : (iterate (Except.error msg) rc recs flag).done
    · rfl
    · obtain ⟨st, hst, _⟩ := (iterate_done_true (Except.error msg) rc recs flag).mp hd
      exact Except.noConfusion hst
  · intro msg p r h
    exact waitRun_thrown_msg env c m (m.toNat * 2 + 1) 0 0 0 false msg p r h
  · intro hq
    exact waitRun_noSucc_thrown env c m hq (m.toNat * 2 + 1) 0 0 0 false

/-- C4 witness: a session whose query always raises a transient error
ends with the timeout error. -/
theorem c4_witness :
    ∃ p r, waitForClusterReady envQueryErr "demo-cluster" 1 =
      Outcome.thrown (timeoutMessage "demo-cluster" 1) p r :=
  (c4_only_timeout_error envQueryErr "demo-cluster" 1).2.2
    (fun _ _ hst => Except.noConfusion hst)


/-- C5: observing `'Succeeded'` on the first poll returns success with no
reconcile call, and returning successfully is equivalent to some
executed poll having observed `'Succeeded'` — the sole success exit. -/
theorem c5_success_iff_succeeded (env : Env) (c : String) (m : Int) :
    (0 < m → ∀ st, env.query 0 = Except.ok st → st.provisioningState = "Succeeded" →
      waitForClusterReady env c m = Outcome.ok 1 0) ∧
      (isOk (waitForClusterReady env c m) = true ↔
        ∃ k, k < outPolls (waitForClusterReady env c m) ∧
          ∃ st, env.query k = Except.ok st ∧ st.provisioningState = "Succeeded") := by
  constructor
  · intro hm st hq hS
    have hc : ((0 : Nat) : Int) < m * 60000 := by push_cast; omega
    have hit : iterate (env.query 0) env.reconcile 0 false = ⟨true, false, 0⟩ := by
      rw [hq]
      exact iterate_ok_succeeded hS _ _ _
    unfold waitForClusterReady
    simp only [waitRun]
    rw [if_pos hc, hit]
    simp
  · constructor
    · intro hok
      cases hout : waitForClusterReady env c m with
      | ok p r =>
        obtain ⟨hlt, st, hst, hS⟩ :=
          waitRun_ok_succ env c m (m.toNat * 2 + 1) 0 0 0 false p r hout
        refine ⟨p - 1, ?_, st, hst, hS⟩
        simp only [outPolls]
        omega
      | thrown msg p r => simp [hout, isOk] at hok
    · rintro ⟨k, hk, st, hst, hS⟩
      cases hout : waitForClusterReady env c m with
      | ok p r => simp [hout, isOk]
      | thrown msg p r =>
        obtain ⟨_, hall⟩ :=
          waitRun_thrown_noSucc env c m (m.toNat * 2 + 1) 0 0 0 false msg p r hout
        rw [hout] at hk
        simp only [outPolls] at hk
        exact absurd hS (hall k (Nat.zero_le k) hk st hst)

/-- C5 witness: a first-poll `'Succeeded'` session returns success with
zero reconcile calls. -/
theorem c5_witness : waitForClusterReady envReady "demo-cluster" 1 = Outcome.ok 1 0 :=
  (c5_success_iff_succeeded envReady "demo-cluster" 1).1 (by norm_num)
    ⟨"Succeeded", false⟩ rfl rfl


/-- C1 counterexample: with the query reporting `'Failed'` every poll and
the first reconcile attempt rejecting, a single one-minute session
invokes `reconcileCluster` twice — the claimed at-most-once invariant
fails because the flag is set only after a reconcile call succeeds. -/
theorem c1_counterexample :
    outRecs (waitForClusterReady envFailedRecBroken "demo-cluster" 1) = 2 ∧
      ¬ outRecs (waitForClusterReady envFailedRecBroken "demo-cluster" 1) ≤ 1 := by
  exact ⟨by decide, by decide⟩

/-- C1 amended: provided every `reconcileCluster` invocation succeeds,
each wait session invokes it at most once, no matter how often
`'Failed'` or query errors are observed. -/
theorem c1_reconcile_at_most_once (env : Env) (c : String) (m : Int)
    (hrc : ∀ k, env.reconcile k = Except.ok ()) :
    outRecs (waitForClusterReady env c m) ≤ 1 :=
  waitRun_recs_le env c m hrc (m.toNat * 2 + 1) 0 0 0 false (by omega) (fun _ => rfl)

/-- C1 witness: an all-`'Failed'` session with a succeeding reconcile
action reconciles at most once. -/
theorem c1_witness :
    (∀ k, envFailedRecOk.reconcile k = Except.ok ()) ∧
      outRecs (waitForClusterReady envFailedRecOk "demo-cluster" 1) ≤ 1 :=
  ⟨fun _ => rfl, c1_reconcile_at_most_once envFailedRecOk "demo-cluster" 1 (fun _ => rfl)⟩

/-- C2 counterexample: when `reconcileCluster` rejects, the
`'Failed'`-branch iteration leaves the flag clear (the claim says it is
set regardless), and the session retries reconciliation on the next
`'Failed'` poll (the claim says it is not retried within the session):
two calls in a one-minute all-failing session. -/
theorem c2_counterexample :
    (iterate (Except.ok ⟨"Failed", false⟩) (fun _ => Except.error "azure boom") 0 false).flag
        = false ∧
      outRecs (waitForClusterReady envFailedRecErr "demo-cluster" 1) = 2 :=
  ⟨by decide, by decide⟩

/-- C2 amended: on a `'Failed'` poll with the flag clear the loop invokes
`reconcileCluster` and never aborts the wait (a rejection is caught by
the surrounding handler, not propagated), but the flag becomes true only
when a reconcile call of that iteration succeeds — a rejected attempt
leaves it clear, allowing a later retry (and an immediate in-iteration
retry when the rejection message mentions the control plane). -/
theorem c2_failed_branch_behavior (st : ClusterStatus) (rc : Nat → Except String Unit)
    (recs : Nat) (hS : st.provisioningState = "Failed") :
    (iterate (Except.ok st) rc recs false).done = false ∧
      1 ≤ (iterate (Except.ok st) rc recs false).recCalls ∧
      ((iterate (Except.ok st) rc recs false).flag = true ↔
        rc recs = Except.ok () ∨
          ∃ msg, rc recs = Except.error msg ∧ includes msg "control plane" = true ∧
            rc (recs + 1) = Except.ok ()) := by
  cases hrc : rc recs with
  | ok u =>
    cases u
    rw [iterate_ok_failed_rcok hS hrc]
    simp [hrc]
  | error msg =>
    cases hcp : includes msg "control plane" with
    | false =>
      rw [iterate_ok_failed_rcerr_nocp hS hrc hcp]
      simp [hrc, hcp]
    | true =>
      cases hrc2 : rc (recs + 1) with
      | ok u =>
        cases u
        rw [iterate_ok_failed_rcerr_cp_ok hS hrc hcp hrc2]
        simp [hrc, hcp, hrc2]
      | error msg2 =>
        rw [iterate_ok_failed_rcerr_cp_err hS hrc hcp hrc2]
        simp [hrc, hcp, hrc2]

/-- C2 witness: a `'Failed'` poll with a succeeding reconcile invokes it
and sets the flag. -/
theorem c2_witness :
    (iterate (Except.ok ⟨"Failed", false⟩) (fun _ => Except.ok ()) 0 false).flag = true :=
  (c2_failed_branch_behavior ⟨"Failed", false⟩ (fun _ => Except.ok ()) 0 rfl).2.2.mpr
    (Or.inl rfl)

/-- C7: a query-error iteration never ends the session, and it invokes
`reconcileCluster` exactly once when the flag is clear and the error
message contains `'control plane'`, and not at all otherwise. -/
theorem c7_error_branch_reconcile (msg : String) (rc : Nat → Except String Unit)
    (recs : Nat) (flag : Bool) :
    (iterate (Except.error msg) rc recs flag).done = false ∧
      (iterate (Except.error msg) rc recs flag).recCalls =
        (if flag = false ∧ includes msg "control plane" = true then 1 else 0) := by
  by_cases h : flag = false ∧ includes msg "control plane" = true
  · obtain ⟨h1, h2⟩ := h
    subst h1
    cases hrc : rc recs with
    | ok u =>
      rw [iterate_err_cp_ok h2 hrc]
      simp [h2]
    | error m2 =>
      rw [iterate_err_cp_err h2 hrc]
      simp [h2]
  · rw [iterate_err_other h]
    simp [h]

/-- C6: for every positive budget of `m` minutes the number of polls is
at most `floor(budget / interval)` (budget `m * 60000` ms, interval
30000 ms), and in the worst case — no latency beyond the sleeps and no
`'Succeeded'` observation — exactly that many polls occur before the
timeout error is thrown. -/
theorem c6_poll_count (c : String) (m : Int) (hm : 0 < m) :
    (∀ env : Env, outPolls (waitForClusterReady env c m) ≤ ((m * 60000) / 30000).toNat) ∧
      (∀ env : Env, (∀ k, env.dur k = 0) →
        (∀ k st, env.query k = Except.ok st → st.provisioningState ≠ "Succeeded") →
        ∃ r, waitForClusterReady env c m =
          Outcome.thrown (timeoutMessage c m) ((m * 60000) / 30000).toNat r) := by
  have h2m : ((m * 60000) / 30000).toNat = 2 * m.toNat := by omega
  rw [h2m]
  constructor
  · intro env
    exact waitRun_polls_le env c m hm (m.toNat * 2 + 1) 0 0 0 false (by omega) (Or.inl rfl)
  · intro env hd0 hq
    have h := waitRun_polls_exact env c m hm hd0 hq (m.toNat * 2 + 1) 0 0 false
      (by omega) (by omega)
    simpa [waitForClusterReady] using h

/-- C6 witness: a one-minute worst-case session performs exactly two
30-second polls before timing out. -/
theorem c6_witness :
    ∃ r, waitForClusterReady envFailedRecOk "demo-cluster" 1 =
      Outcome.thrown (timeoutMessage "demo-cluster" 1) (((1 : Int) * 60000 / 30000).toNat) r :=
  (c6_poll_count "demo-cluster" 1 (by norm_num)).2 envFailedRecOk (fun _ => rfl)
    (fun _ st hst => by injection hst with h; rw [← h]; decide)


end AksProvisioner
